import Mathlib

/-!
Shallow embedding of `contrib/rhel/curtin/curtin-hooks.py` from the
maas-image-builder repository, in its two revisions R33 and R46.

Kernel-command-line parsing is modelled over `List Char` with Python
string-method semantics (`split`, `startswith`, `join`, `lower`).
Filesystem writes are modelled as the strings they produce, external
commands (`mount`, `umount`, `grub2-install`, ...) as boolean success
outcomes, and Python exceptions as an explicit error type `PyErr`.
A value `Except.ok n` of `main` stands for `sys.exit(n)` (normal
completion is `Except.ok 0`), and `Except.error e` stands for an
uncaught exception propagating out of `main`; in both cases the
operating-system process exit status is recovered by `processExit`.
-/

/-- Python exception values that the hook can raise. -/
inductive PyErr where
  | keyError : String → PyErr
  | typeError : PyErr
  | valueError : PyErr
  | exception : String → PyErr
  | processError : String → PyErr
  | osError : String → PyErr
deriving DecidableEq

/-- Equality of `Except` results is decidable when both components are. -/
instance {e a : Type} [DecidableEq e] [DecidableEq a] : DecidableEq (Except e a) := fun x y =>
  match x, y with
  | .ok v, .ok w =>
    if h : v = w then .isTrue (by rw [h]) else .isFalse (by intro hh; injection hh; exact h (by assumption))
  | .ok _, .error _ => .isFalse (by intro hh; exact Except.noConfusion hh)
  | .error _, .ok _ => .isFalse (by intro hh; exact Except.noConfusion hh)
  | .error v, .error w =>
    if h : v = w then .isTrue (by rw [h]) else .isFalse (by intro hh; injection hh; exact h (by assumption))

/-- Python `s.startswith(pre)` on character lists. -/
def pyStartsWith : List Char → List Char → Bool
  | _, [] => true
  | [], _ :: _ => false
  | c :: cs, p :: ps => c == p && pyStartsWith cs ps

/-- Python `s.split(sep)` for a single-character separator `sep`:
`"".split(sep) == ['']`, and separators delimit (possibly empty) fields. -/
def pySplitOnChar (sep : Char) : List Char → List (List Char)
  | [] => [[]]
  | c :: rest =>
    let r := pySplitOnChar sep rest
    if c = sep then [] :: r
    else
      match r with
      | [] => [[c]]
      | t :: ts => (c :: t) :: ts

/-- Splitting on a character predicate, keeping empty fields; used to build
the whitespace `str.split()` below. -/
def splitOnPred (p : Char → Bool) : List Char → List (List Char)
  | [] => [[]]
  | c :: rest =>
    let r := splitOnPred p rest
    if p c then [] :: r
    else
      match r with
      | [] => [[c]]
      | t :: ts => (c :: t) :: ts

/-- Python no-argument `str.split()`: the maximal runs of non-whitespace
characters, with leading/trailing/repeated whitespace ignored. -/
def pySplitWs (s : List Char) : List (List Char) :=
  (splitOnPred (fun c => c.isWhitespace) s).filter (fun t => !t.isEmpty)

/-- Python `sep.join(xs)`. -/
def pyJoin (sep : List Char) (xs : List (List Char)) : List Char :=
  List.intercalate sep xs

/-- Python `s.lower()` (ASCII case folding). -/
def pyLower (s : List Char) : List Char :=
  s.map Char.toLower

/-- Embedding of `get_boot_mac` (textually identical in R33 and R46).
It scans the `/proc/cmdline` tokens for those starting with `BOOTIF`;
an empty selection means `return None`; otherwise the first such token
goes through `_, mac = bootif.split('=')` (a two-target unpacking that
raises `ValueError` unless the split has exactly two parts), then
`mac = mac.split('-')[1:]` and `return ':'.join(mac)`. -/
def get_boot_mac (cmdline : List Char) : Except PyErr (Option (List Char)) :=
  match (pySplitWs cmdline).filter (fun o => pyStartsWith o ("BOOTIF".toList)) with
  | [] => .ok none
  | bootif :: _ =>
    match pySplitOnChar '=' bootif with
    | [_, mac] => .ok (some (pyJoin (":".toList) ((pySplitOnChar '-' mac).drop 1)))
    | _ => .error .valueError

/-- Embedding of `strip_kernel_params` (identical in both revisions):
keep the parameters for which no element of `strip_params` is a prefix. -/
def strip_kernel_params (params strip_params : List (List Char)) : List (List Char) :=
  match params with
  | [] => []
  | param :: rest =>
    if strip_params.any (fun strip => pyStartsWith param strip) then
      strip_kernel_params rest strip_params
    else
      param :: strip_kernel_params rest strip_params

/-- Embedding of `get_extra_kernel_parameters` (identical in both
revisions): tokens of `/proc/cmdline` after the first `--` token, with
`initrd=` / `BOOT_IMAGE=` / `BOOTIF=` prefixed tokens stripped.  The
source's dead guard `if idx >= len(cmdline) + 1: return []` is kept. -/
def get_extra_kernel_parameters (cmdline : List Char) : List (List Char) :=
  let tokens := pySplitWs cmdline
  if "--".toList ∉ tokens then []
  else
    let idx := tokens.indexOf ("--".toList) + 1
    if tokens.length + 1 ≤ idx then []
    else
      strip_kernel_params (tokens.drop idx)
        ["initrd=".toList, "BOOT_IMAGE=".toList, "BOOTIF=".toList]

/-- The fixed `/etc/fstab` preamble (identical in both revisions). -/
def FSTAB_PREPEND : String :=
"#\n# /etc/fstab\n# Created by MAAS fast-path installer.\n#\n# Accessible filesystems, by reference, are maintained under '/dev/disk'\n# See man pages fstab(5), findfs(8), mount(8) and/or blkid(8) for more info\n#\n"

/-- The fstab line appended on UEFI-bootable systems. -/
def FSTAB_UEFI : String :=
"LABEL=uefi-boot /boot/efi vfat defaults 0 0\n"

/-- The fixed `/etc/default/grub` preamble (identical in both revisions). -/
def GRUB_PREPEND : String :=
"# Set by MAAS fast-path installer.\nGRUB_TIMEOUT=0\nGRUB_TERMINAL_OUTPUT=console\nGRUB_DISABLE_OS_PROBER=true\n"

/-- Embedding of `write_fstab` (identical in both revisions): the content
of the freshly truncated `/etc/fstab` after the sequential `stream.write`
calls, given the content of the curtin-provided fstab file and whether the
system is UEFI-bootable. -/
def write_fstab (curtin_fstab_data : List Char) (uefi_bootable : Bool) : List Char :=
  let stream : List Char := []
  let stream := stream ++ FSTAB_PREPEND.toList
  let stream := stream ++ curtin_fstab_data
  if uefi_bootable then stream ++ FSTAB_UEFI.toList else stream

/-- Embedding of R33 `update_grub_default`: first component is the text
appended to `/etc/default/grub`, second component is the caller's `extra`
list after the call (R33 never mutates it). -/
def update_grub_defaultR33 (extra : List (List Char)) : List Char × List (List Char) :=
  let kernel_cmdline := pyJoin (" ".toList) extra
  (GRUB_PREPEND.toList ++ "GRUB_CMDLINE_LINUX=\"".toList ++ kernel_cmdline
      ++ "\"\n".toList,
   extra)

/-- Embedding of R46 `update_grub_default`: before joining, the function
executes `extra.append("fsck.mode=skip")` and `extra.append("rootfstype=ext4")`,
mutating the caller's list in place; the second component is that mutated
list as the caller observes it after the call. -/
def update_grub_defaultR46 (extra : List (List Char)) : List Char × List (List Char) :=
  let extra := extra ++ ["fsck.mode=skip".toList]
  let extra := extra ++ ["rootfstype=ext4".toList]
  let kernel_cmdline := pyJoin (" ".toList) extra
  (GRUB_PREPEND.toList ++ "GRUB_CMDLINE_LINUX=\"".toList ++ kernel_cmdline
      ++ "\"\n".toList,
   extra)

/-- The module-level default list of R46 `update_grub_default` after `n`
successive calls that use the default argument: Python evaluates the
default `[]` once, so every such call mutates the same shared list. -/
def defaultExtraAfterR46 : Nat → List (List Char)
  | 0 => []
  | n + 1 => (update_grub_defaultR46 (defaultExtraAfterR46 n)).2

/-- C4: a kernel command line whose first `BOOTIF`-prefixed token is
`BOOTIF=01-aa-bb-cc-dd-ee-ff` makes `get_boot_mac` return the MAC
`aa:bb:cc:dd:ee:ff` (hardware-type octet dropped, dashes turned into
colons). -/
theorem get_boot_mac_standard_bootif (cmdline : List Char) (rest : List (List Char))
    (h : (pySplitWs cmdline).filter (fun o => pyStartsWith o ("BOOTIF".toList))
        = "BOOTIF=01-aa-bb-cc-dd-ee-ff".toList :: rest) :
    get_boot_mac cmdline = .ok (some ("aa:bb:cc:dd:ee:ff".toList)) := by
  unfold get_boot_mac
  rw [h]
  rfl

/-- Concrete run of the C4 theorem on a realistic command line. -/
theorem get_boot_mac_standard_bootif_witness :
    get_boot_mac ("ro BOOTIF=01-aa-bb-cc-dd-ee-ff quiet".toList)
      = .ok (some ("aa:bb:cc:dd:ee:ff".toList)) :=
  get_boot_mac_standard_bootif ("ro BOOTIF=01-aa-bb-cc-dd-ee-ff quiet".toList) []
    (by decide)

/-- C5: when the command line has no `--` token,
`get_extra_kernel_parameters` returns the empty list. -/
theorem get_extra_kernel_parameters_no_sep (cmdline : List Char)
    (h : "--".toList ∉ pySplitWs cmdline) :
    get_extra_kernel_parameters cmdline = [] := by
  show (if "--".toList ∉ pySplitWs cmdline then ([] : List (List Char))
    else
      let idx := List.indexOf ("--".toList) (pySplitWs cmdline) + 1
      if (pySplitWs cmdline).length + 1 ≤ idx then []
      else strip_kernel_params ((pySplitWs cmdline).drop idx)
        ["initrd=".toList, "BOOT_IMAGE=".toList, "BOOTIF=".toList]) = []
  rw [if_pos h]

/-- Concrete run of the C5 theorem. -/
theorem get_extra_kernel_parameters_no_sep_witness :
    get_extra_kernel_parameters ("ro root=/dev/sda1 quiet".toList) = [] :=
  get_extra_kernel_parameters_no_sep ("ro root=/dev/sda1 quiet".toList) (by decide)

/-- C2: the written `/etc/fstab` is exactly the fixed preamble, then the
supplied curtin fstab content verbatim, then the UEFI line exactly when
the system is UEFI-bootable. -/
theorem write_fstab_layout (fstabData : List Char) (uefi : Bool) :
    write_fstab fstabData uefi
      = FSTAB_PREPEND.toList
          ++ (fstabData ++ (if uefi then FSTAB_UEFI.toList else [])) := by
  cases uefi <;> simp [write_fstab]

/-- Every parameter surviving `strip_kernel_params` matches none of the
strip prefixes. -/
theorem strip_kernel_params_not_stripped (params strips : List (List Char)) :
    ∀ p ∈ strip_kernel_params params strips,
      strips.any (fun strip => pyStartsWith p strip) = false := by
  induction params with
  | nil =>
    intro p hp
    simp [strip_kernel_params] at hp
  | cons a rest ih =>
    intro p hp
    unfold strip_kernel_params at hp
    by_cases ha : strips.any (fun strip => pyStartsWith a strip) = true
    · rw [if_pos ha] at hp
      exact ih p hp
    · rw [if_neg ha] at hp
      rcases List.mem_cons.mp hp with h | h
      · subst h
        simpa using ha
      · exact ih p h

/-- A let-free unfolding of `get_extra_kernel_parameters`, used to reason
about its branches. -/
theorem get_extra_kernel_parameters_eq (cmdline : List Char) :
    get_extra_kernel_parameters cmdline =
      if "--".toList ∉ pySplitWs cmdline then []
      else if (pySplitWs cmdline).length + 1
          ≤ List.indexOf ("--".toList) (pySplitWs cmdline) + 1 then []
      else
        strip_kernel_params
          ((pySplitWs cmdline).drop (List.indexOf ("--".toList) (pySplitWs cmdline) + 1))
          ["initrd=".toList, "BOOT_IMAGE=".toList, "BOOTIF=".toList] := rfl

/-- The extra kernel parameters extracted from the command line never
start with `initrd=`, `BOOT_IMAGE=` or `BOOTIF=`. -/
theorem get_extra_kernel_parameters_stripped (cmdline : List Char) :
    ∀ p ∈ get_extra_kernel_parameters cmdline,
      pyStartsWith p ("initrd=".toList) = false ∧
      pyStartsWith p ("BOOT_IMAGE=".toList) = false ∧
      pyStartsWith p ("BOOTIF=".toList) = false := by
  intro p hp
  rw [get_extra_kernel_parameters_eq] at hp
  split at hp
  · simp at hp
  · split at hp
    · simp at hp
    · have h := strip_kernel_params_not_stripped _ _ p hp
      simp only [List.any_cons, List.any_nil, Bool.or_eq_false_iff] at h
      exact ⟨h.1, h.2.1, h.2.2.1⟩

/-- C3 counterexample: in R46, even with an empty extra-parameter list the
appended `GRUB_CMDLINE_LINUX` value is not the space-join of the (stripped)
extra parameters: the function appends `fsck.mode=skip rootfstype=ext4`
as well, so the claimed exact output is wrong. -/
theorem update_grub_default_exact_line_cex :
    ¬ ((update_grub_defaultR46 []).1
        = GRUB_PREPEND.toList ++ "GRUB_CMDLINE_LINUX=\"".toList
            ++ pyJoin (" ".toList) ([] : List (List Char)) ++ "\"\n".toList) := by
  decide

/-- C3 amended: with the extra parameters taken from the kernel command
line (already stripped of `initrd=` / `BOOT_IMAGE=` / `BOOTIF=` tokens, as
`main` composes the two functions), R33 appends exactly the fixed preamble
plus one `GRUB_CMDLINE_LINUX` line whose value is the space-join of those
parameters; R46 appends the same except that the value additionally ends
with the two tokens `fsck.mode=skip` and `rootfstype=ext4`. -/
theorem update_grub_default_appended_text (cmdline : List Char) :
    (∀ p ∈ get_extra_kernel_parameters cmdline,
        pyStartsWith p ("initrd=".toList) = false ∧
        pyStartsWith p ("BOOT_IMAGE=".toList) = false ∧
        pyStartsWith p ("BOOTIF=".toList) = false) ∧
    (update_grub_defaultR33 (get_extra_kernel_parameters cmdline)).1
      = GRUB_PREPEND.toList ++ "GRUB_CMDLINE_LINUX=\"".toList
          ++ pyJoin (" ".toList) (get_extra_kernel_parameters cmdline)
          ++ "\"\n".toList ∧
    (update_grub_defaultR46 (get_extra_kernel_parameters cmdline)).1
      = GRUB_PREPEND.toList ++ "GRUB_CMDLINE_LINUX=\"".toList
          ++ pyJoin (" ".toList)
              (get_extra_kernel_parameters cmdline
                ++ ["fsck.mode=skip".toList, "rootfstype=ext4".toList])
          ++ "\"\n".toList := by
  refine ⟨get_extra_kernel_parameters_stripped cmdline, rfl, ?_⟩
  simp [update_grub_defaultR46, List.append_assoc]

/-- Joining `n` copies of a list commutes with one more copy. -/
theorem flatten_replicate_append_self {α : Type} (l : List α) (n : Nat) :
    List.flatten (List.replicate n l) ++ l = l ++ List.flatten (List.replicate n l) := by
  induction n with
  | zero => simp
  | succ n ih =>
    rw [List.replicate_succ, List.flatten_cons, List.append_assoc, ih]

/-- C10: R46 `update_grub_default` hands back the caller's list with
`fsck.mode=skip` and `rootfstype=ext4` appended in place, R33 hands it
back unchanged, and successive R46 calls through the shared default
argument accumulate one pair of tokens per call. -/
theorem update_grub_default_mutation :
    (∀ extra, (update_grub_defaultR46 extra).2
        = extra ++ ["fsck.mode=skip".toList, "rootfstype=ext4".toList]) ∧
    (∀ extra, (update_grub_defaultR33 extra).2 = extra) ∧
    (∀ n, defaultExtraAfterR46 n
        = List.flatten (List.replicate n
            ["fsck.mode=skip".toList, "rootfstype=ext4".toList])) := by
  refine ⟨fun extra => by simp [update_grub_defaultR46], fun extra => rfl, ?_⟩
  intro n
  induction n with
  | zero => rfl
  | succ n ih =>
    show (update_grub_defaultR46 (defaultExtraAfterR46 n)).2 = _
    rw [List.replicate_succ, List.flatten_cons]
    simp only [update_grub_defaultR46, ih, List.append_assoc]
    rw [← flatten_replicate_append_self]
    simp

/-- Mount/filesystem state tracked across `install_efi`: whether the
temporary mount point `target/boot/efi_part` exists and is mounted, and
whether `target/boot/efi` is mounted. -/
structure EfiState where
  tmpDirExists : Bool
  tmpMounted : Bool
  efiMounted : Bool
deriving DecidableEq

/-- Success outcomes of the fallible steps of R33 `install_efi`, in source
order: the two `mount` and two `umount` invocations, the `rmtree/copytree`
copy step, and the chrooted `grub2-install`. -/
structure OutcomesR33 where
  mountTmpOk : Bool
  umountTmpOk : Bool
  copyOk : Bool
  mountEfiOk : Bool
  umountEfiOk : Bool
  grubOk : Bool
deriving DecidableEq

/-- Success outcomes of the fallible steps of R46 `install_efi`:
as in R33 plus the umount-then-mount retry after a failed efi mount,
whether `check_efi_dir` finds `target/boot/efi/EFI`, and whether the
fallback `copytree` from the sentinel directory `target/yxp` succeeds. -/
structure OutcomesR46 where
  mountTmpOk : Bool
  umountTmpOk : Bool
  copyOk : Bool
  mountEfiOk : Bool
  retryUmountOk : Bool
  retryMountOk : Bool
  efiDirPresent : Bool
  yxpCopyOk : Bool
  umountEfiOk : Bool
  grubOk : Bool
deriving DecidableEq

/-- Result of a terminated `install_efi` run: the Python outcome (normal
return or propagated exception), the final mount state, and whether the
chrooted `grub2-install` command was reached. -/
structure InstallEfiResult where
  result : Except PyErr Unit
  st : EfiState
  grubRan : Bool
deriving DecidableEq

/-- Embedding of R33 `install_efi` as a transition over `EfiState`.
`os.mkdir` and `os.rmdir` are taken to succeed; each `if !ok` branch is
the propagation of the exception of the corresponding source step, with
the state it leaves behind.  An exception raised by an `umount` inside a
`finally` block replaces the copy/install exception and skips the rest of
the cleanup, exactly as in Python. -/
def install_efiR33 (o : OutcomesR33) : InstallEfiResult :=
  -- os.mkdir(tmp_efi): the temporary mount point now exists
  -- util.subp(['mount', uefi_path, tmp_efi]): not inside any try block
  if !o.mountTmpOk then ⟨.error (.processError "mount"), ⟨true, false, false⟩, false⟩
  else
    -- try: rmtree/copytree ... finally: umount tmp_efi; os.rmdir(tmp_efi)
    if !o.umountTmpOk then ⟨.error (.processError "umount"), ⟨true, true, false⟩, false⟩
    else if !o.copyOk then ⟨.error (.osError "copytree"), ⟨false, false, false⟩, false⟩
    else
      -- util.subp(['mount', uefi_path, efi_path]): not inside a try block
      if !o.mountEfiOk then
        ⟨.error (.processError "mount"), ⟨false, false, false⟩, false⟩
      else
        -- try: grub2-install in chroot ... finally: umount efi_path
        if !o.umountEfiOk then
          ⟨.error (.processError "umount"), ⟨false, false, true⟩, true⟩
        else if !o.grubOk then
          ⟨.error (.processError "grub2-install"), ⟨false, false, false⟩, true⟩
        else ⟨.ok (), ⟨false, false, false⟩, true⟩

/-- Embedding of R46 `install_efi`.  The efi mount is wrapped in
`try/except`; on failure an umount-then-mount retry runs, and if that also
fails the exception is swallowed (`mount_flag = False`, two prints).
Then `check_efi_dir` runs and, when it does not find the `EFI` directory,
a bare `shutil.copytree(target/yxp, efi/EFI)` runs outside any try block.
The final `finally` umounts `efi_path` only when `mount_flag` is set. -/
def install_efiR46 (o : OutcomesR46) : InstallEfiResult :=
  if !o.mountTmpOk then ⟨.error (.processError "mount"), ⟨true, false, false⟩, false⟩
  else
    if !o.umountTmpOk then ⟨.error (.processError "umount"), ⟨true, true, false⟩, false⟩
    else if !o.copyOk then ⟨.error (.osError "copytree"), ⟨false, false, false⟩, false⟩
    else
      let mountRes : Bool × EfiState :=
        if o.mountEfiOk then (true, ⟨false, false, true⟩)
        else if !o.retryUmountOk then (false, ⟨false, false, false⟩)
        else if o.retryMountOk then (true, ⟨false, false, true⟩)
        else (false, ⟨false, false, false⟩)
      let mount_flag := mountRes.1
      let st3 := mountRes.2
      if !o.efiDirPresent && !o.yxpCopyOk then
        ⟨.error (.osError "copytree"), st3, false⟩
      else
        if mount_flag then
          if !o.umountEfiOk then ⟨.error (.processError "umount"), st3, true⟩
          else if !o.grubOk then
            ⟨.error (.processError "grub2-install"), ⟨false, false, false⟩, true⟩
          else ⟨.ok (), ⟨false, false, false⟩, true⟩
        else
          if !o.grubOk then ⟨.error (.processError "grub2-install"), st3, true⟩
          else ⟨.ok (), st3, true⟩

/-- The state C6 says every terminated `install_efi` run leaves behind:
nothing mounted and the temporary directory gone. -/
abbrev cleanEfiState (st : EfiState) : Prop :=
  st.tmpMounted = false ∧ st.tmpDirExists = false ∧ st.efiMounted = false

/-- C6 counterexample: when the very first `mount` of the UEFI partition
onto the temporary mount point fails, R33 `install_efi` terminates by
exception with the temporary directory still present — the claimed
unconditional cleanup does not cover this path. -/
theorem install_efi_cleanup_cex :
    ¬ cleanEfiState (install_efiR33 ⟨false, true, true, true, true, true⟩).st := by
  decide

/-- Helper for the amended C6: the R33 cleanup property under successful
mount and umount commands. -/
theorem install_efiR33_clean_of_mounts_ok (o33 : OutcomesR33)
    (h1 : o33.mountTmpOk = true) (h2 : o33.umountTmpOk = true)
    (h3 : o33.mountEfiOk = true) (h4 : o33.umountEfiOk = true) :
    cleanEfiState (install_efiR33 o33).st := by
  obtain ⟨m1, u1, c1, m2, u2, g1⟩ := o33
  revert m1 u1 c1 m2 u2 g1
  decide

set_option synthInstance.maxHeartbeats 1000000 in
set_option maxHeartbeats 4000000 in
/-- Helper for the amended C6: the R46 cleanup property under successful
mount and umount commands and a successful EFI-dir check or sentinel copy. -/
theorem install_efiR46_clean_of_mounts_ok (o46 : OutcomesR46)
    (h5 : o46.mountTmpOk = true) (h6 : o46.umountTmpOk = true)
    (h7 : o46.mountEfiOk = true) (h8 : o46.umountEfiOk = true)
    (h9 : o46.efiDirPresent = true ∨ o46.yxpCopyOk = true) :
    cleanEfiState (install_efiR46 o46).st := by
  obtain ⟨n1, n2, n3, n4, n5, n6, n7, n8, n9, n10⟩ := o46
  have e1 : n1 = true := h5
  have e2 : n2 = true := h6
  have e3 : n4 = true := h7
  have e4 : n9 = true := h8
  subst e1 e2 e3 e4
  have e9 : n7 = true ∨ n8 = true := h9
  cases n3 <;> cases n5 <;> cases n6 <;> cases n7 <;> cases n8 <;> cases n10 <;>
    first
      | decide
      | (rcases e9 with e | e <;> exact Bool.noConfusion e)

/-- C6 amended: provided every `mount`/`umount` invocation succeeds (and,
in R46, the EFI-directory check or the fallback sentinel copy succeeds),
`install_efi` of either revision never terminates — normally or by an
exception from the copy or grub-install step — with the temporary mount
point mounted, the temporary directory present, or the efi directory
mounted. -/
theorem install_efi_cleanup_amended (o33 : OutcomesR33) (o46 : OutcomesR46)
    (h1 : o33.mountTmpOk = true) (h2 : o33.umountTmpOk = true)
    (h3 : o33.mountEfiOk = true) (h4 : o33.umountEfiOk = true)
    (h5 : o46.mountTmpOk = true) (h6 : o46.umountTmpOk = true)
    (h7 : o46.mountEfiOk = true) (h8 : o46.umountEfiOk = true)
    (h9 : o46.efiDirPresent = true ∨ o46.yxpCopyOk = true) :
    cleanEfiState (install_efiR33 o33).st ∧ cleanEfiState (install_efiR46 o46).st :=
  ⟨install_efiR33_clean_of_mounts_ok o33 h1 h2 h3 h4,
   install_efiR46_clean_of_mounts_ok o46 h5 h6 h7 h8 h9⟩

/-- Concrete run of the amended C6 theorem: all mounts succeed and the
copy step of R46 raises; both runs still end fully cleaned up. -/
theorem install_efi_cleanup_amended_witness :
    cleanEfiState (install_efiR33 ⟨true, true, true, true, true, true⟩).st ∧
    cleanEfiState (install_efiR46 ⟨true, true, false, true, true, true, true, true, true, true⟩).st :=
  install_efi_cleanup_amended ⟨true, true, true, true, true, true⟩
    ⟨true, true, false, true, true, true, true, true, true, true⟩
    rfl rfl rfl rfl rfl rfl rfl rfl (Or.inl rfl)

/-- C8: in R46, when mounting the UEFI partition onto the efi directory
fails and the umount-then-mount retry also fails, `install_efi` swallows
the failure and still reaches the chrooted `grub2-install`; with a
successful grub install the whole function returns normally. -/
theorem install_efi_swallowed_mount_failure (o : OutcomesR46)
    (h1 : o.mountTmpOk = true) (h2 : o.umountTmpOk = true) (h3 : o.copyOk = true)
    (h4 : o.mountEfiOk = false)
    (h5 : o.retryUmountOk = false ∨ o.retryMountOk = false)
    (h6 : o.efiDirPresent = true) :
    (install_efiR46 o).grubRan = true ∧
    (o.grubOk = true → (install_efiR46 o).result = .ok ()) := by
  obtain ⟨n1, n2, n3, n4, n5, n6, n7, n8, n9, n10⟩ := o
  revert n1 n2 n3 n4 n5 n6 n7 n8 n9 n10
  decide

/-- Concrete run of the C8 theorem: both the efi mount and the retried
mount fail, yet grub2-install runs and the function returns normally. -/
theorem install_efi_swallowed_mount_failure_witness :
    (install_efiR46 ⟨true, true, true, false, false, false, true, true, true, true⟩).grubRan = true ∧
    ((⟨true, true, true, false, false, false, true, true, true, true⟩ : OutcomesR46).grubOk = true →
      (install_efiR46 ⟨true, true, true, false, false, false, true, true, true, true⟩).result = .ok ()) :=
  install_efi_swallowed_mount_failure
    ⟨true, true, true, false, false, false, true, true, true, true⟩
    rfl rfl rfl rfl (Or.inl rfl) rfl

/-- Lookup in a Python dict built by successive insertions (as
`get_interface_names` builds its MAC-to-name dict): the last binding of a
key wins. -/
def dictLookup (d : List (List Char × String)) (k : List Char) : Option String :=
  (d.reverse.find? (fun p => p.1 == k)).map (fun p => p.2)

/-- Embedding of R33 `write_network_config`: look up the interface name
for the lowercased boot MAC in the `get_interface_names` dict (a missing
key raises `KeyError`) and write a DHCP ifcfg file for it; no claim reads
the rendered ifcfg text, so the success value is the interface name. -/
def write_network_configR33 (ifaces : List (List Char × String)) (mac : List Char) :
    Except PyErr String :=
  match dictLookup ifaces (pyLower mac) with
  | none => .error (.keyError (String.mk (pyLower mac)))
  | some iname => .ok iname

/-- One subnet dict of the curtin network config; `none` models an absent
key, whose subscript access raises `KeyError`. -/
structure Subnet where
  address : Option String
  gateway : Option String
deriving DecidableEq

/-- One entry of the curtin `network.config` list: `name` is read with
`config_line.get('name', '')` and `subnets` with `config_line['subnets']`
(`KeyError` if absent). -/
structure ConfigLine where
  name : Option String
  subnets : Option (List Subnet)
deriving DecidableEq

/-- Python `config_line.get('name', '')`. -/
def ConfigLine.getName (c : ConfigLine) : String := c.name.getD ""

/-- Python `'%s' % x` for an optional string: `None` prints as `None`. -/
def pyStrOpt : Option String → String
  | none => "None"
  | some s => s

/-- Python `address.replace('/24', '')`: remove the occurrences of `/24`,
scanning left to right. -/
def strip24 : List Char → List Char
  | '/' :: '2' :: '4' :: rest => strip24 rest
  | c :: rest => c :: strip24 rest
  | [] => []

/-- The inner `for sub in subnets` loop of `get_address_gatway_message`:
state is `(address_flag, gateway_flag, address, gateway)`; each subnet
reads `sub['gateway']` then `sub['address']` (raising `KeyError` when
absent), strips `/24` from the address, and sets both flags. -/
def subnetLoop : List Subnet → Bool × Bool × Option String × Option String →
    Except PyErr (Bool × Bool × Option String × Option String)
  | [], st => .ok st
  | sub :: rest, _ =>
    match sub.gateway with
    | none => .error (.keyError "gateway")
    | some g =>
      match sub.address with
      | none => .error (.keyError "address")
      | some a => subnetLoop rest (true, true, some (String.mk (strip24 a.toList)), some g)

/-- The outer `for config_line in network_config` loop of
`get_address_gatway_message`: lines whose `name` equals the interface name
have their `subnets` list processed by `subnetLoop`. -/
def lineLoop (iname : String) : List ConfigLine → Bool × Bool × Option String × Option String →
    Except PyErr (Bool × Bool × Option String × Option String)
  | [], st => .ok st
  | line :: rest, st =>
    if line.getName = iname then
      match line.subnets with
      | none => .error (.keyError "subnets")
      | some subs =>
        match subnetLoop subs st with
        | .error e => .error e
        | .ok st2 => lineLoop iname rest st2
    else lineLoop iname rest st

/-- Embedding of R46 `get_address_gatway_message` (source spelling kept):
run the two loops from an all-unset state, then
`if not min(address_flag, gateway_flag): raise Exception(...)`. -/
def get_address_gatway_message (network_config : List ConfigLine) (iname : String) :
    Except PyErr (Option String × Option String) :=
  match lineLoop iname network_config (false, false, none, none) with
  | .error e => .error e
  | .ok (aflag, gflag, address, gateway) =>
    if (aflag && gflag) = false then
      .error (.exception ("some bad thing happen, address:" ++ pyStrOpt address
        ++ ", gateway:" ++ pyStrOpt gateway))
    else .ok (address, gateway)

/-- Embedding of R46 `write_network_config`: the interface lookup runs
first (`KeyError` on a missing MAC), then a missing network config raises
a bare `Exception`, then `get_address_gatway_message` runs; the static
ifcfg rendering is not read by any claim, so the success value is the
interface name with the address and gateway written. -/
def write_network_configR46 (ifaces : List (List Char × String)) (mac : List Char)
    (network_config : Option (List ConfigLine)) :
    Except PyErr (String × Option String × Option String) :=
  match dictLookup ifaces (pyLower mac) with
  | none => .error (.keyError (String.mk (pyLower mac)))
  | some iname =>
    match network_config with
    | none => .error (.exception "can not find network config, some bad thing happened")
    | some cfg =>
      match get_address_gatway_message cfg iname with
      | .error e => .error e
      | .ok (address, gateway) => .ok (iname, address, gateway)

/-- A config line owns at least one subnet dict. -/
abbrev hasSubnet (line : ConfigLine) : Prop :=
  match line.subnets with
  | some (_ :: _) => True
  | _ => False

/-- All subnet dicts of an (optional) subnets list carry both keys.  An
absent `subnets` key is not well-formed. -/
abbrev wfSubnets : Option (List Subnet) → Prop
  | none => False
  | some subs => ∀ sub ∈ subs, sub.address ≠ none ∧ sub.gateway ≠ none

/-- A well-formed nonempty subnet list drives `subnetLoop` to a normal
result with both flags set, from any starting state. -/
theorem subnetLoop_ok_of_wf (subs : List Subnet)
    (h : ∀ sub ∈ subs, sub.address ≠ none ∧ sub.gateway ≠ none) :
    ∀ st, subs ≠ [] →
      ∃ a g, subnetLoop subs st = .ok (true, true, a, g) := by
  induction subs with
  | nil => intro st hne; exact absurd rfl hne
  | cons sub rest ih =>
    intro st _
    obtain ⟨ha, hg⟩ := h sub (List.mem_cons_self _ _)
    obtain ⟨a, haa⟩ := Option.ne_none_iff_exists'.mp ha
    obtain ⟨g, hgg⟩ := Option.ne_none_iff_exists'.mp hg
    have hrest : ∀ s ∈ rest, s.address ≠ none ∧ s.gateway ≠ none :=
      fun s hs => h s (List.mem_cons_of_mem _ hs)
    by_cases he : rest = []
    · subst he
      exact ⟨some (String.mk (strip24 a.toList)), some g, by
        simp [subnetLoop, hgg, haa]⟩
    · obtain ⟨a2, g2, hh⟩ :=
        ih hrest (true, true, some (String.mk (strip24 a.toList)), some g) he
      refine ⟨a2, g2, ?_⟩
      simp only [subnetLoop, hgg, haa]
      exact hh

/-- A well-formed subnet list keeps both flags set. -/
theorem subnetLoop_preserve (subs : List Subnet)
    (h : ∀ sub ∈ subs, sub.address ≠ none ∧ sub.gateway ≠ none) (a g : Option String) :
    ∃ a2 g2, subnetLoop subs (true, true, a, g) = .ok (true, true, a2, g2) := by
  by_cases he : subs = []
  · subst he; exact ⟨a, g, rfl⟩
  · exact subnetLoop_ok_of_wf subs h _ he

/-- When every line matching the interface name is well-formed, `lineLoop`
keeps both flags set. -/
theorem lineLoop_preserve (iname : String) (cfg : List ConfigLine)
    (hwf : ∀ line ∈ cfg, line.getName = iname → wfSubnets line.subnets) :
    ∀ (a g : Option String),
      ∃ a2 g2, lineLoop iname cfg (true, true, a, g) = .ok (true, true, a2, g2) := by
  induction cfg with
  | nil => intro a g; exact ⟨a, g, rfl⟩
  | cons line rest ih =>
    intro a g
    have hrest : ∀ l ∈ rest, l.getName = iname → wfSubnets l.subnets :=
      fun l hl => hwf l (List.mem_cons_of_mem _ hl)
    by_cases hn : line.getName = iname
    · have hw := hwf line (List.mem_cons_self _ _) hn
      cases hs : line.subnets with
      | none => rw [hs] at hw; exact hw.elim
      | some subs =>
        rw [hs] at hw
        obtain ⟨a2, g2, hsl⟩ := subnetLoop_preserve subs hw a g
        obtain ⟨a3, g3, hll⟩ := ih hrest a2 g2
        exact ⟨a3, g3, by simp [lineLoop, hn, hs, hsl, hll]⟩
    · obtain ⟨a2, g2, hll⟩ := ih hrest a g
      exact ⟨a2, g2, by simp [lineLoop, hn, hll]⟩

/-- When every matching line is well-formed and some matching line has a
nonempty subnet list, `lineLoop` ends normally with both flags set. -/
theorem lineLoop_sets_flags (iname : String) (cfg : List ConfigLine)
    (hwf : ∀ line ∈ cfg, line.getName = iname → wfSubnets line.subnets)
    (hex : ∃ line, line ∈ cfg ∧ line.getName = iname ∧ hasSubnet line) :
    ∀ st, ∃ a g, lineLoop iname cfg st = .ok (true, true, a, g) := by
  induction cfg with
  | nil =>
    obtain ⟨line, hm, _⟩ := hex
    exact absurd hm (List.not_mem_nil _)
  | cons line rest ih =>
    intro st
    have hrest : ∀ l ∈ rest, l.getName = iname → wfSubnets l.subnets :=
      fun l hl => hwf l (List.mem_cons_of_mem _ hl)
    by_cases hn : line.getName = iname
    · have hw := hwf line (List.mem_cons_self _ _) hn
      cases hs : line.subnets with
      | none => rw [hs] at hw; exact hw.elim
      | some subs =>
        rw [hs] at hw
        cases subs with
        | nil =>
          have hex2 : ∃ l, l ∈ rest ∧ l.getName = iname ∧ hasSubnet l := by
            obtain ⟨l, hm, hln, hsub⟩ := hex
            rcases List.mem_cons.mp hm with rfl | hm2
            · simp only [hasSubnet, hs] at hsub
            · exact ⟨l, hm2, hln, hsub⟩
          obtain ⟨a, g, hll⟩ := ih hrest hex2 st
          exact ⟨a, g, by simp [lineLoop, hn, hs, subnetLoop, hll]⟩
        | cons s0 srest =>
          obtain ⟨a, g, hsl⟩ := subnetLoop_ok_of_wf (s0 :: srest) hw st (by simp)
          obtain ⟨a2, g2, hll⟩ := lineLoop_preserve iname rest hrest a g
          exact ⟨a2, g2, by simp [lineLoop, hn, hs, hsl, hll]⟩
    · have hex2 : ∃ l, l ∈ rest ∧ l.getName = iname ∧ hasSubnet l := by
        obtain ⟨l, hm, hln, hsub⟩ := hex
        rcases List.mem_cons.mp hm with rfl | hm2
        · exact absurd hln hn
        · exact ⟨l, hm2, hln, hsub⟩
      obtain ⟨a, g, hll⟩ := ih hrest hex2 st
      exact ⟨a, g, by simp [lineLoop, hn, hll]⟩

/-- When no line matches the interface name, `lineLoop` returns its
starting state untouched. -/
theorem lineLoop_no_match (iname : String) (cfg : List ConfigLine)
    (h : ∀ line ∈ cfg, line.getName ≠ iname) :
    ∀ st, lineLoop iname cfg st = .ok st := by
  induction cfg with
  | nil => intro st; rfl
  | cons line rest ih =>
    intro st
    have hn := h line (List.mem_cons_self _ _)
    have hrest : ∀ l ∈ rest, l.getName ≠ iname :=
      fun l hl => h l (List.mem_cons_of_mem _ hl)
    simp [lineLoop, hn, ih hrest]

/-- A well-formed network config for the interface makes
`get_address_gatway_message` return normally. -/
theorem get_address_gatway_message_ok (cfg : List ConfigLine) (iname : String)
    (hwf : ∀ line ∈ cfg, line.getName = iname → wfSubnets line.subnets)
    (hex : ∃ line, line ∈ cfg ∧ line.getName = iname ∧ hasSubnet line) :
    ∃ a g, get_address_gatway_message cfg iname = .ok (a, g) := by
  obtain ⟨a, g, hll⟩ := lineLoop_sets_flags iname cfg hwf hex (false, false, none, none)
  exact ⟨a, g, by simp [get_address_gatway_message, hll]⟩

/-- A resolvable MAC plus a well-formed network config make R46
`write_network_config` succeed. -/
theorem write_network_configR46_ok (ifaces : List (List Char × String)) (mac : List Char)
    (cfg : List ConfigLine) (iname : String)
    (hl : dictLookup ifaces (pyLower mac) = some iname)
    (hwf : ∀ line ∈ cfg, line.getName = iname → wfSubnets line.subnets)
    (hex : ∃ line, line ∈ cfg ∧ line.getName = iname ∧ hasSubnet line) :
    ∃ a g, write_network_configR46 ifaces mac (some cfg) = .ok (iname, a, g) := by
  obtain ⟨a, g, hmsg⟩ := get_address_gatway_message_ok cfg iname hwf hex
  exact ⟨a, g, by simp [write_network_configR46, hl, hmsg]⟩

/-- Splitting on a character that does not occur yields the whole string
as the single field. -/
theorem pySplitOnChar_not_mem (sep : Char) (v : List Char) (h : sep ∉ v) :
    pySplitOnChar sep v = [v] := by
  induction v with
  | nil => rfl
  | cons c cs ih =>
    have hc : ¬ (c = sep) := fun hh => h (List.mem_cons.mpr (Or.inl hh.symm))
    have hcs : sep ∉ cs := fun hh => h (List.mem_cons.mpr (Or.inr hh))
    simp only [pySplitOnChar]
    rw [if_neg hc, ih hcs]

/-- Splitting at the first separator occurrence peels off the prefix. -/
theorem pySplitOnChar_append_cons (sep : Char) (a b : List Char) (h : sep ∉ a) :
    pySplitOnChar sep (a ++ sep :: b) = a :: pySplitOnChar sep b := by
  induction a with
  | nil =>
    simp [pySplitOnChar]
  | cons c cs ih =>
    have hc : ¬ (c = sep) := fun hh => h (List.mem_cons.mpr (Or.inl hh.symm))
    have hcs : sep ∉ cs := fun hh => h (List.mem_cons.mpr (Or.inr hh))
    show pySplitOnChar sep (c :: (cs ++ sep :: b)) = (c :: cs) :: pySplitOnChar sep b
    simp only [pySplitOnChar]
    rw [if_neg hc, ih hcs]

/-- Under a known first `BOOTIF` token, `get_boot_mac` is the processing
of that token. -/
theorem get_boot_mac_eq_of_filter (cmdline tok : List Char) (rest : List (List Char))
    (h : (pySplitWs cmdline).filter (fun o => pyStartsWith o ("BOOTIF".toList))
        = tok :: rest) :
    get_boot_mac cmdline =
      match pySplitOnChar '=' tok with
      | [_, mac] => .ok (some (pyJoin (":".toList) ((pySplitOnChar '-' mac).drop 1)))
      | _ => .error .valueError := by
  unfold get_boot_mac
  rw [h]

/-- Environment facts one R33 hook run observes: installer state values,
`/proc/cmdline`, the discovered block devices, UEFI facts, and the
MAC-to-interface-name dict from `/sys/class/net`. -/
structure WorldR33 where
  target : Option String
  fstab : Option String
  cmdline : List Char
  devices : List String
  uefiBootable : Bool
  uefiPartPath : Option String
  ifaces : List (List Char × String)
deriving DecidableEq

/-- Environment facts one R46 hook run observes: as in R33 plus the
curtin config path from the environment and the result of reading
`config['network']['config']` from it (`error` for a missing key or
unreadable config, `ok none` for a JSON null, `ok (some cfg)` for a
list). -/
structure WorldR46 where
  target : Option String
  fstab : Option String
  cmdline : List Char
  devices : List String
  uefiBootable : Bool
  uefiPartPath : Option String
  ifaces : List (List Char × String)
  configPath : Option String
  networkAccess : Except PyErr (Option (List ConfigLine))
deriving DecidableEq

/-- Embedding of R33 `main` over a world, with file writes and external
commands (`write_fstab`, `update_grub_default`, `grub2_mkconfig`,
`install_efi`/`grub2_install`, `set_autorelabel`) taken to succeed:
`Except.ok n` is `sys.exit(n)` or normal completion (`0`),
`Except.error` an uncaught exception. -/
def mainR33 (w : WorldR33) : Except PyErr Nat :=
  match w.target with
  | none => .ok 1
  | some _ =>
    match w.fstab with
    | none => .ok 1
    | some _ =>
      match get_boot_mac w.cmdline with
      | .error e => .error e
      | .ok none => .ok 1
      | .ok (some bootmac) =>
        if w.devices = [] then .ok 1
        else
          if w.uefiBootable then
            match w.uefiPartPath with
            | none => .ok 1
            | some _ =>
              match write_network_configR33 w.ifaces bootmac with
              | .error e => .error e
              | .ok _ => .ok 0
          else
            match write_network_configR33 w.ifaces bootmac with
            | .error e => .error e
            | .ok _ => .ok 0

/-- The tail of R46 `main` after the bootloader step: `load_config`
(`open(None)` raises `TypeError` when the config path is missing),
`get_nertwork_config` (its `KeyError` is carried by `networkAccess`),
`set_autorelabel`, and `write_network_config`. -/
def mainR46tail (w : WorldR46) (bootmac : List Char) : Except PyErr Nat :=
  match w.configPath with
  | none => .error .typeError
  | some _ =>
    match w.networkAccess with
    | .error e => .error e
    | .ok network_config =>
      match write_network_configR46 w.ifaces bootmac network_config with
      | .error e => .error e
      | .ok _ => .ok 0

/-- Embedding of R46 `main`.  `tmp_dir_EFI_dir(target)` runs before the
`target is None` check and calls `os.path.join(None, ...)` on a missing
target, so that case raises `TypeError` instead of printing and exiting;
file writes and external commands are taken to succeed as in `mainR33`. -/
def mainR46 (w : WorldR46) : Except PyErr Nat :=
  match w.target with
  | none => .error .typeError
  | some _ =>
    match w.fstab with
    | none => .ok 1
    | some _ =>
      match get_boot_mac w.cmdline with
      | .error e => .error e
      | .ok none => .ok 1
      | .ok (some bootmac) =>
        if w.devices = [] then .ok 1
        else
          if w.uefiBootable then
            match w.uefiPartPath with
            | none => .ok 1
            | some _ => mainR46tail w bootmac
          else mainR46tail w bootmac

/-- Operating-system exit status of an R33 run: `sys.exit(n)` gives `n`,
an uncaught exception makes the interpreter exit with status `1`. -/
def processExitR33 (w : WorldR33) : Nat :=
  match mainR33 w with
  | .ok n => n
  | .error _ => 1

/-- Operating-system exit status of an R46 run. -/
def processExitR46 (w : WorldR46) : Nat :=
  match mainR46 w with
  | .ok n => n
  | .error _ => 1

/-- The error conditions C1 lists for R33: missing target or fstab path,
undiscoverable boot interface, no block device, or (under UEFI) no
discovered UEFI partition. -/
abbrev c1CondR33 (w : WorldR33) : Prop :=
  w.target = none ∨ w.fstab = none ∨ get_boot_mac w.cmdline = .ok none ∨
    w.devices = [] ∨ (w.uefiBootable = true ∧ w.uefiPartPath = none)

/-- The error conditions C1 lists, for an R46 world. -/
abbrev c1CondR46 (w : WorldR46) : Prop :=
  w.target = none ∨ w.fstab = none ∨ get_boot_mac w.cmdline = .ok none ∨
    w.devices = [] ∨ (w.uefiBootable = true ∧ w.uefiPartPath = none)

/-- C9: when the first `BOOTIF` token is `BOOTIF=<value>` with no dash in
the value, `get_boot_mac` returns the empty string rather than `None`
(`<value>.split('-')[1:]` is empty, and joining gives `''`), so R33
`main`'s is-None check passes and the run continues with the empty MAC —
completing normally when everything downstream resolves — instead of
exiting with status 1 at the boot-interface check. -/
theorem get_boot_mac_dashless_empty (cmdline v : List Char) (rest : List (List Char))
    (w : WorldR33) (t f : String)
    (h1 : (pySplitWs cmdline).filter (fun o => pyStartsWith o ("BOOTIF".toList))
        = ("BOOTIF=".toList ++ v) :: rest)
    (h2 : '-' ∉ v) (h3 : '=' ∉ v)
    (hw : w.cmdline = cmdline) (ht : w.target = some t) (hf : w.fstab = some f)
    (hd : w.devices ≠ []) (hu : w.uefiBootable = false)
    (hl : dictLookup w.ifaces [] ≠ none) :
    get_boot_mac cmdline = .ok (some []) ∧ mainR33 w = .ok 0 := by
  have hb : get_boot_mac cmdline = .ok (some []) := by
    have hsplit : pySplitOnChar '=' ("BOOTIF=".toList ++ v) = ["BOOTIF".toList, v] := by
      rw [show ("BOOTIF=".toList : List Char) = "BOOTIF".toList ++ ['='] from rfl,
        List.append_assoc, List.singleton_append,
        pySplitOnChar_append_cons '=' ("BOOTIF".toList) v (by decide),
        pySplitOnChar_not_mem '=' v h3]
    rw [get_boot_mac_eq_of_filter cmdline _ rest h1, hsplit]
    show Except.ok (some (pyJoin (":".toList) ((pySplitOnChar '-' v).drop 1)))
      = Except.ok (some ([] : List Char))
    rw [pySplitOnChar_not_mem '-' v h2]
    rfl
  refine ⟨hb, ?_⟩
  obtain ⟨iname, hli⟩ := Option.ne_none_iff_exists'.mp hl
  unfold mainR33
  rw [ht, hf, hw, hb]
  simp [hd, hu, write_network_configR33, pyLower, hli]

/-- With the MAC resolved, a `None` network config makes R46
`write_network_config` raise its bare `Exception`. -/
theorem write_network_configR46_none (ifaces : List (List Char × String))
    (mac : List Char) (iname : String)
    (hl : dictLookup ifaces (pyLower mac) = some iname) :
    write_network_configR46 ifaces mac none
      = .error (.exception "can not find network config, some bad thing happened") := by
  unfold write_network_configR46
  rw [hl]

/-- With the MAC resolved and no config line naming the interface, the
flags stay unset and `get_address_gatway_message` raises its bare
`Exception`. -/
theorem write_network_configR46_no_match (ifaces : List (List Char × String))
    (mac : List Char) (cfg : List ConfigLine) (iname : String)
    (hl : dictLookup ifaces (pyLower mac) = some iname)
    (hnm : ∀ line ∈ cfg, line.getName ≠ iname) :
    write_network_configR46 ifaces mac (some cfg)
      = .error (.exception "some bad thing happen, address:None, gateway:None") := by
  have hmsg : get_address_gatway_message cfg iname
      = .error (.exception "some bad thing happen, address:None, gateway:None") := by
    unfold get_address_gatway_message
    rw [lineLoop_no_match iname cfg hnm]
    rfl
  simp [write_network_configR46, hl, hmsg]

/-- C7: in R46, a malformed network configuration — none supplied, or no
config entry matching the boot interface — makes `write_network_config`
(via `get_address_gatway_message` in the second case) raise a bare
`Exception`, which no handler in `main` catches: the run ends as an
uncaught crash rather than a print-and-exit-1. -/
theorem mainR46_uncaught_network_exception (w : WorldR46) (t f p : String)
    (m : List Char) (iname : String)
    (ht : w.target = some t) (hf : w.fstab = some f)
    (hb : get_boot_mac w.cmdline = .ok (some m))
    (hd : w.devices ≠ [])
    (hu : w.uefiBootable = true → w.uefiPartPath ≠ none)
    (hc : w.configPath = some p)
    (hl : dictLookup w.ifaces (pyLower m) = some iname)
    (hn : w.networkAccess = .ok none ∨
      ∃ cfg, w.networkAccess = .ok (some cfg) ∧ ∀ line ∈ cfg, line.getName ≠ iname) :
    ∃ msg, mainR46 w = .error (.exception msg) := by
  have htail : ∃ msg, mainR46tail w m = .error (.exception msg) := by
    rcases hn with hn | ⟨cfg, hacc, hnm⟩
    · exact ⟨"can not find network config, some bad thing happened",
        by simp [mainR46tail, hc, hn,
          write_network_configR46_none w.ifaces m iname hl]⟩
    · exact ⟨"some bad thing happen, address:None, gateway:None",
        by simp [mainR46tail, hc, hacc,
          write_network_configR46_no_match w.ifaces m cfg iname hl hnm]⟩
  obtain ⟨msg, hmsg⟩ := htail
  refine ⟨msg, ?_⟩
  unfold mainR46
  rw [ht, hf, hb]
  cases hub : w.uefiBootable with
  | true =>
    obtain ⟨up, hup⟩ := Option.ne_none_iff_exists'.mp (hu hub)
    simp [hub, hd, hup, hmsg]
  | false =>
    simp [hub, hd, hmsg]

/-- A concrete C7 world: everything discoverable, but the curtin config
carries an empty network config list. -/
def c7WitnessWorld : WorldR46 :=
  ⟨some "/tgt", some "/fst", "BOOTIF=01-aa-bb ro".toList, ["/dev/sda"], false, none,
   [("aa:bb".toList, "eth0")], some "/cfg", .ok (some [])⟩

/-- Concrete run of the C7 theorem. -/
theorem mainR46_uncaught_network_exception_witness :
    ∃ msg, mainR46 c7WitnessWorld = .error (.exception msg) :=
  mainR46_uncaught_network_exception c7WitnessWorld "/tgt" "/fst" "/cfg"
    ("aa:bb".toList) "eth0" rfl rfl (by decide) (by decide)
    (fun h => absurd h (by decide)) rfl (by decide)
    (Or.inr ⟨[], rfl, by simp⟩)

/-- Executable check that every subnet dict of an (optional) subnets list
carries both keys. -/
def wfSubnetsB : Option (List Subnet) → Bool
  | none => false
  | some subs => subs.all (fun sub => sub.address.isSome && sub.gateway.isSome)

/-- Executable check that a config line owns a nonempty subnets list. -/
def hasSubnetB (line : ConfigLine) : Bool :=
  match line.subnets with
  | some (_ :: _) => true
  | _ => false

/-- Executable well-formedness of a network config for an interface:
every matching line is well-formed and some matching line has a subnet. -/
def wfNetForB (cfg : List ConfigLine) (iname : String) : Bool :=
  cfg.all (fun line => !(line.getName == iname) || wfSubnetsB line.subnets) &&
  cfg.any (fun line => (line.getName == iname) && hasSubnetB line)

/-- Executable side condition for the amended C1 on R33: `get_boot_mac`
does not raise, and when it returns a MAC that MAC is a key of the
`/sys/class/net` dict. -/
def macResolvesR33 (w : WorldR33) : Bool :=
  match get_boot_mac w.cmdline with
  | .error _ => false
  | .ok none => true
  | .ok (some m) => (dictLookup w.ifaces (pyLower m)).isSome

/-- Executable side condition for the amended C1 on R46: as on R33, plus
a present config path and a well-formed network config for the resolved
interface. -/
def netResolvesR46 (w : WorldR46) : Bool :=
  match get_boot_mac w.cmdline with
  | .error _ => false
  | .ok none => true
  | .ok (some m) =>
    match dictLookup w.ifaces (pyLower m) with
    | none => false
    | some iname =>
      w.configPath.isSome &&
      match w.networkAccess with
      | .ok (some cfg) => wfNetForB cfg iname
      | _ => false

/-- Soundness of `wfSubnetsB`. -/
theorem wfSubnetsB_spec (o : Option (List Subnet)) (h : wfSubnetsB o = true) :
    wfSubnets o := by
  cases o with
  | none => exact Bool.noConfusion (h : false = true)
  | some subs =>
    intro sub hs
    have hx := List.all_eq_true.mp (h : subs.all _ = true) sub hs
    rw [Bool.and_eq_true] at hx
    constructor
    · exact Option.isSome_iff_ne_none.mp hx.1
    · exact Option.isSome_iff_ne_none.mp hx.2

/-- Soundness of `wfNetForB`. -/
theorem wfNetForB_spec (cfg : List ConfigLine) (iname : String)
    (h : wfNetForB cfg iname = true) :
    (∀ line ∈ cfg, line.getName = iname → wfSubnets line.subnets) ∧
    (∃ line, line ∈ cfg ∧ line.getName = iname ∧ hasSubnet line) := by
  unfold wfNetForB at h
  rw [Bool.and_eq_true] at h
  obtain ⟨h1, h2⟩ := h
  constructor
  · intro line hl hname
    have hx := List.all_eq_true.mp h1 line hl
    rw [Bool.or_eq_true] at hx
    rcases hx with hx | hx
    · rw [Bool.not_eq_eq_eq_not, Bool.not_true, beq_eq_false_iff_ne] at hx
      exact absurd hname hx
    · exact wfSubnetsB_spec _ hx
  · obtain ⟨line, hl, hx⟩ := List.any_eq_true.mp h2
    rw [Bool.and_eq_true] at hx
    obtain ⟨he, hs⟩ := hx
    refine ⟨line, hl, by simpa using he, ?_⟩
    unfold hasSubnetB at hs
    unfold hasSubnet
    cases hq : line.subnets with
    | none => rw [hq] at hs; exact Bool.noConfusion hs
    | some subs =>
      cases subs with
      | nil => rw [hq] at hs; exact Bool.noConfusion hs
      | cons a b => trivial

/-- Exit status characterization for R33 `main` under a resolvable boot
MAC: status 1 exactly on the C1 conditions, 0 otherwise. -/
theorem mainR33_exit_eq (w : WorldR33) (h : macResolvesR33 w = true) :
    processExitR33 w = if c1CondR33 w then 1 else 0 := by
  unfold c1CondR33
  cases ht : w.target with
  | none => simp [processExitR33, mainR33, c1CondR33, ht]
  | some t =>
    cases hf : w.fstab with
    | none => simp [processExitR33, mainR33, c1CondR33, ht, hf]
    | some f =>
      unfold macResolvesR33 at h
      cases hb : get_boot_mac w.cmdline with
      | error e => rw [hb] at h; exact Bool.noConfusion (h : false = true)
      | ok r =>
        rw [hb] at h
        cases r with
        | none => simp [processExitR33, mainR33, c1CondR33, ht, hf, hb]
        | some m =>
          replace h : (dictLookup w.ifaces (pyLower m)).isSome = true := h
          rw [Option.isSome_iff_exists] at h
          obtain ⟨iname, hli⟩ := h
          by_cases hd : w.devices = []
          · simp [processExitR33, mainR33, c1CondR33, ht, hf, hb, hd]
          · cases hub : w.uefiBootable with
            | true =>
              cases hup : w.uefiPartPath with
              | none => simp [processExitR33, mainR33, c1CondR33, ht, hf, hb, hd, hub, hup]
              | some up =>
                simp [processExitR33, mainR33, c1CondR33, ht, hf, hb, hd, hub, hup,
                  write_network_configR33, hli]
            | false =>
              simp [processExitR33, mainR33, c1CondR33, ht, hf, hb, hd, hub,
                write_network_configR33, hli]

/-- Exit status characterization for R46 `main` under a resolvable boot
MAC, present config path, and well-formed network config. -/
theorem mainR46_exit_eq (w : WorldR46) (h : netResolvesR46 w = true) :
    processExitR46 w = if c1CondR46 w then 1 else 0 := by
  unfold c1CondR46
  cases ht : w.target with
  | none => simp [processExitR46, mainR46, c1CondR46, ht]
  | some t =>
    cases hf : w.fstab with
    | none => simp [processExitR46, mainR46, c1CondR46, ht, hf]
    | some f =>
      unfold netResolvesR46 at h
      cases hb : get_boot_mac w.cmdline with
      | error e => rw [hb] at h; exact Bool.noConfusion (h : false = true)
      | ok r =>
        rw [hb] at h
        cases r with
        | none => simp [processExitR46, mainR46, c1CondR46, ht, hf, hb]
        | some m =>
          replace h : (match dictLookup w.ifaces (pyLower m) with
            | none => false
            | some iname =>
              w.configPath.isSome &&
                match w.networkAccess with
                | .ok (some cfg) => wfNetForB cfg iname
                | _ => false) = true := h
          cases hli : dictLookup w.ifaces (pyLower m) with
          | none => rw [hli] at h; exact Bool.noConfusion (h : false = true)
          | some iname =>
            rw [hli] at h
            replace h : (w.configPath.isSome &&
                match w.networkAccess with
                | .ok (some cfg) => wfNetForB cfg iname
                | _ => false) = true := h
            rw [Bool.and_eq_true] at h
            obtain ⟨hcp, hna⟩ := h
            rw [Option.isSome_iff_exists] at hcp
            obtain ⟨p, hp⟩ := hcp
            cases hacc : w.networkAccess with
            | error e => rw [hacc] at hna; exact Bool.noConfusion (hna : false = true)
            | ok nc =>
              rw [hacc] at hna
              cases nc with
              | none => exact Bool.noConfusion (hna : false = true)
              | some cfg =>
                replace hna : wfNetForB cfg iname = true := hna
                obtain ⟨hwf, hex⟩ := wfNetForB_spec cfg iname hna
                obtain ⟨a, g, hwn⟩ :=
                  write_network_configR46_ok w.ifaces m cfg iname hli hwf hex
                by_cases hd : w.devices = []
                · simp [processExitR46, mainR46, c1CondR46, ht, hf, hb, hd]
                · cases hub : w.uefiBootable with
                  | true =>
                    cases hup : w.uefiPartPath with
                    | none =>
                      simp [processExitR46, mainR46, c1CondR46, ht, hf, hb, hd, hub, hup]
                    | some up =>
                      simp [processExitR46, mainR46, mainR46tail, c1CondR46, ht, hf, hb,
                        hd, hub, hup, hp, hacc, hwn]
                  | false =>
                    simp [processExitR46, mainR46, mainR46tail, c1CondR46, ht, hf, hb,
                      hd, hub, hp, hacc, hwn]

/-- A concrete R46 world with every C1 condition false whose run still
exits with status 1 (the empty network config list makes
`write_network_config` raise, the interpreter exits 1). -/
def c1CexWorld : WorldR46 :=
  ⟨some "/tgt", some "/fst", "BOOTIF=01-aa-bb ro".toList, ["/dev/sda"], false, none,
   [("aa:bb".toList, "eth0")], some "/cfg", .ok (some [])⟩

/-- C1 counterexample: a run with no missing environment value and every
device and interface discoverable that still does not exit with status 0,
refuting the claimed `status 0 in every other case`. -/
theorem main_exit_code_cex :
    ¬ c1CondR46 c1CexWorld ∧ processExitR46 c1CexWorld = 1 := by
  decide

/-- C1 amended: the exit status is 1 exactly on the listed conditions and
0 otherwise, provided additionally that the parsed boot MAC resolves to an
interface of `/sys/class/net` and — in R46 — the curtin config is present
and supplies a well-formed network config for that interface (without
these, the run can instead end in an uncaught exception: interpreter
status 1 even when no listed condition holds, and in R46 a missing target
crashes in `tmp_dir_EFI_dir` before the print-and-exit path). -/
theorem main_exit_code_amended (w33 : WorldR33) (w46 : WorldR46)
    (h33 : macResolvesR33 w33 = true) (h46 : netResolvesR46 w46 = true) :
    processExitR33 w33 = (if c1CondR33 w33 then 1 else 0) ∧
    processExitR46 w46 = (if c1CondR46 w46 then 1 else 0) :=
  ⟨mainR33_exit_eq w33 h33, mainR46_exit_eq w46 h46⟩

/-- A concrete fully-resolvable R33 world. -/
def c1WitnessWorldR33 : WorldR33 :=
  ⟨some "/tgt", some "/fst", "BOOTIF=01-aa-bb ro".toList, ["/dev/sda"], false, none,
   [("aa:bb".toList, "eth0")]⟩

/-- A concrete fully-resolvable R46 world with a well-formed network
config entry for the boot interface. -/
def c1WitnessWorldR46 : WorldR46 :=
  ⟨some "/tgt", some "/fst", "BOOTIF=01-aa-bb ro".toList, ["/dev/sda"], false, none,
   [("aa:bb".toList, "eth0")], some "/cfg",
   .ok (some [⟨some "eth0", some [⟨some "10.0.0.2/24", some "10.0.0.1"⟩]⟩])⟩

/-- Concrete run of the amended C1 theorem. -/
theorem main_exit_code_amended_witness :
    processExitR33 c1WitnessWorldR33 = (if c1CondR33 c1WitnessWorldR33 then 1 else 0) ∧
    processExitR46 c1WitnessWorldR46 = (if c1CondR46 c1WitnessWorldR46 then 1 else 0) :=
  main_exit_code_amended c1WitnessWorldR33 c1WitnessWorldR46 (by decide) (by decide)

/-- A concrete R33 world whose command line carries a dashless `BOOTIF`
value and whose interface dict contains the empty MAC. -/
def c9WitnessWorld : WorldR33 :=
  ⟨some "/tgt", some "/fst", "BOOTIF=0123 ro".toList, ["/dev/sda"], false, none,
   [([], "eth0")]⟩

/-- Concrete run of the C9 theorem. -/
theorem get_boot_mac_dashless_empty_witness :
    get_boot_mac ("BOOTIF=0123 ro".toList) = .ok (some []) ∧
    mainR33 c9WitnessWorld = .ok 0 :=
  get_boot_mac_dashless_empty ("BOOTIF=0123 ro".toList) ("0123".toList) []
    c9WitnessWorld "/tgt" "/fst" (by decide) (by decide) (by decide)
    rfl rfl rfl (by decide) rfl (by decide)

/-- When every line matching the interface name carries an empty subnets
list, `lineLoop` returns its starting state untouched. -/
theorem lineLoop_empty_subnets (iname : String) (cfg : List ConfigLine)
    (h : ∀ line ∈ cfg, ConfigLine.getName line = iname → line.subnets = some []) :
    ∀ st, lineLoop iname cfg st = .ok st := by
  induction cfg with
  | nil => intro st; rfl
  | cons line rest ih =>
    intro st
    have hrest : ∀ l ∈ rest, ConfigLine.getName l = iname → l.subnets = some [] :=
      fun l hl => h l (List.mem_cons_of_mem _ hl)
    by_cases hn : ConfigLine.getName line = iname
    · have hs := h line (List.mem_cons_self _ _) hn
      simp [lineLoop, hn, hs, subnetLoop, ih hrest]
    · simp [lineLoop, hn, ih hrest]

/-- When no subnet dict of any matching line provides both keys (or a
matching line lacks the subnets key), `lineLoop` from the all-unset state
either comes back with the state untouched or raises a `KeyError` from
the first reached missing subscript. -/
theorem lineLoop_incomplete (iname : String) (cfg : List ConfigLine)
    (h : ∀ line ∈ cfg, ConfigLine.getName line = iname →
      line.subnets = none ∨
      ∃ subs, line.subnets = some subs ∧
        ∀ sub ∈ subs, sub.gateway = none ∨ sub.address = none) :
    lineLoop iname cfg (false, false, none, none) = .ok (false, false, none, none) ∨
    ∃ k, lineLoop iname cfg (false, false, none, none) = .error (.keyError k) := by
  induction cfg with
  | nil => exact Or.inl rfl
  | cons line rest ih =>
    have hrest : ∀ l ∈ rest, ConfigLine.getName l = iname →
        l.subnets = none ∨
        ∃ subs, l.subnets = some subs ∧
          ∀ sub ∈ subs, sub.gateway = none ∨ sub.address = none :=
      fun l hl => h l (List.mem_cons_of_mem _ hl)
    by_cases hn : ConfigLine.getName line = iname
    · rcases h line (List.mem_cons_self _ _) hn with hs | ⟨subs, hs, hsubs⟩
      · exact Or.inr ⟨"subnets", by simp [lineLoop, hn, hs]⟩
      · cases subs with
        | nil =>
          rcases ih hrest with hok | ⟨k, hk⟩
          · exact Or.inl (by simp [lineLoop, hn, hs, subnetLoop, hok])
          · exact Or.inr ⟨k, by simp [lineLoop, hn, hs, subnetLoop, hk]⟩
        | cons s0 srest =>
          cases hgc : s0.gateway with
          | none => exact Or.inr ⟨"gateway", by simp [lineLoop, hn, hs, subnetLoop, hgc]⟩
          | some g =>
            rcases hsubs s0 (List.mem_cons_self _ _) with hg | ha
            · rw [hgc] at hg; exact Option.noConfusion hg
            · exact Or.inr ⟨"address", by simp [lineLoop, hn, hs, subnetLoop, hgc, ha]⟩
    · rcases ih hrest with hok | ⟨k, hk⟩
      · exact Or.inl (by simp [lineLoop, hn, hok])
      · exact Or.inr ⟨k, by simp [lineLoop, hn, hk]⟩

/-- Under the malformed trigger, `get_address_gatway_message` raises
either its bare `Exception` (flags never set) or a `KeyError` from a
missing subscript. -/
theorem get_address_gatway_message_malformed (cfg : List ConfigLine) (iname : String)
    (h : ∀ line ∈ cfg, ConfigLine.getName line = iname →
      line.subnets = none ∨
      ∃ subs, line.subnets = some subs ∧
        ∀ sub ∈ subs, sub.gateway = none ∨ sub.address = none) :
    (∃ msg, get_address_gatway_message cfg iname = .error (.exception msg)) ∨
    (∃ k, get_address_gatway_message cfg iname = .error (.keyError k)) := by
  rcases lineLoop_incomplete iname cfg h with hok | ⟨k, hk⟩
  · exact Or.inl ⟨"some bad thing happen, address:None, gateway:None",
      by simp [get_address_gatway_message, hok]; rfl⟩
  · exact Or.inr ⟨k, by simp [get_address_gatway_message, hk]⟩

/-- Once the environment checks pass and the boot MAC parses, `mainR46`
is its network tail. -/
theorem mainR46_eq_tail (w : WorldR46) (t f : String) (m : List Char)
    (ht : w.target = some t) (hf : w.fstab = some f)
    (hb : get_boot_mac w.cmdline = .ok (some m))
    (hd : w.devices ≠ [])
    (hu : w.uefiBootable = true → w.uefiPartPath ≠ none) :
    mainR46 w = mainR46tail w m := by
  unfold mainR46
  rw [ht, hf, hb]
  cases hub : w.uefiBootable with
  | true =>
    obtain ⟨up, hup⟩ := Option.ne_none_iff_exists'.mp (hu hub)
    simp [hub, hd, hup]
  | false =>
    simp [hub, hd]

/-- A concrete world inside the C7 trigger — the entry matching the boot
interface has one subnet dict carrying neither `address` nor `gateway` —
on which the run crashes with a `KeyError`, not a bare `Exception`. -/
def c7CexWorld : WorldR46 :=
  ⟨some "/tgt", some "/fst", "BOOTIF=01-aa-bb ro".toList, ["/dev/sda"], false, none,
   [("aa:bb".toList, "eth0")], some "/cfg",
   .ok (some [⟨some "eth0", some [⟨none, none⟩]⟩])⟩

/-- C7 counterexample: with no subnet entry providing both address and
gateway for the boot interface, the propagating error can be the
`KeyError` of `sub['gateway']`, not the claimed unstructured `Exception`. -/
theorem mainR46_network_keyerror_cex :
    mainR46 c7CexWorld = .error (.keyError "gateway") ∧
    ∀ msg, mainR46 c7CexWorld ≠ .error (.exception msg) := by
  constructor
  · decide
  · intro msg h
    have h0 : mainR46 c7CexWorld = .error (.keyError "gateway") := by decide
    rw [h0] at h
    injection h with h1
    exact PyErr.noConfusion h1

/-- C7 amended: in R46, a malformed network configuration — none
supplied, or no subnet entry of the lines naming the boot interface
providing both address and gateway — makes the run end as an uncaught
crash, never a `sys.exit`: a bare `Exception` from `write_network_config`
or `get_address_gatway_message` when the config is absent or the matching
lines contribute no subnet dicts at all, and a `KeyError` from a missing
`subnets`/`gateway`/`address` subscript otherwise; `main` catches none of
them. -/
theorem mainR46_malformed_network_crash (w : WorldR46) (t f p : String)
    (m : List Char) (iname : String)
    (ht : w.target = some t) (hf : w.fstab = some f)
    (hb : get_boot_mac w.cmdline = .ok (some m))
    (hd : w.devices ≠ [])
    (hu : w.uefiBootable = true → w.uefiPartPath ≠ none)
    (hc : w.configPath = some p)
    (hl : dictLookup w.ifaces (pyLower m) = some iname)
    (hn : w.networkAccess = .ok none ∨
      ∃ cfg, w.networkAccess = .ok (some cfg) ∧
        ∀ line ∈ cfg, ConfigLine.getName line = iname →
          line.subnets = none ∨
          ∃ subs, line.subnets = some subs ∧
            ∀ sub ∈ subs, sub.gateway = none ∨ sub.address = none) :
    ((∃ msg, mainR46 w = .error (.exception msg)) ∨
      (∃ k, mainR46 w = .error (.keyError k))) ∧
    (∀ n, mainR46 w ≠ .ok n) ∧
    ((w.networkAccess = .ok none ∨
        ∃ cfg, w.networkAccess = .ok (some cfg) ∧
          ∀ line ∈ cfg, ConfigLine.getName line = iname → line.subnets = some []) →
      ∃ msg, mainR46 w = .error (.exception msg)) := by
  have heq := mainR46_eq_tail w t f m ht hf hb hd hu
  rw [heq]
  have hcrash : (∃ msg, mainR46tail w m = .error (.exception msg)) ∨
      (∃ k, mainR46tail w m = .error (.keyError k)) := by
    rcases hn with hn | ⟨cfg, hacc, htr⟩
    · exact Or.inl ⟨"can not find network config, some bad thing happened",
        by simp [mainR46tail, hc, hn,
          write_network_configR46_none w.ifaces m iname hl]⟩
    · rcases get_address_gatway_message_malformed cfg iname htr with ⟨msg, hmsg⟩ | ⟨k, hk⟩
      · exact Or.inl ⟨msg,
          by simp [mainR46tail, hc, hacc, write_network_configR46, hl, hmsg]⟩
      · exact Or.inr ⟨k,
          by simp [mainR46tail, hc, hacc, write_network_configR46, hl, hk]⟩
  refine ⟨hcrash, ?_, ?_⟩
  · intro n hok
    rcases hcrash with ⟨msg, hmsg⟩ | ⟨k, hk⟩
    · rw [hok] at hmsg; exact Except.noConfusion hmsg
    · rw [hok] at hk; exact Except.noConfusion hk
  · intro h3
    rcases h3 with h3 | ⟨cfg, hacc, hemp⟩
    · exact ⟨"can not find network config, some bad thing happened",
        by simp [mainR46tail, hc, h3,
          write_network_configR46_none w.ifaces m iname hl]⟩
    · have hll := lineLoop_empty_subnets iname cfg hemp (false, false, none, none)
      have hmsg : get_address_gatway_message cfg iname
          = .error (.exception "some bad thing happen, address:None, gateway:None") := by
        unfold get_address_gatway_message
        rw [hll]
        rfl
      exact ⟨"some bad thing happen, address:None, gateway:None",
        by simp [mainR46tail, hc, hacc, write_network_configR46, hl, hmsg]⟩

/-- A concrete world for the amended C7: the matching entry exists but
its subnets list is empty, the case where the bare `Exception` fires. -/
def c7AmendedWitnessWorld : WorldR46 :=
  ⟨some "/tgt", some "/fst", "BOOTIF=01-aa-bb ro".toList, ["/dev/sda"], false, none,
   [("aa:bb".toList, "eth0")], some "/cfg",
   .ok (some [⟨some "eth0", some []⟩])⟩

/-- Concrete run of the amended C7 theorem. -/
theorem mainR46_malformed_network_crash_witness :
    ((∃ msg, mainR46 c7AmendedWitnessWorld = .error (.exception msg)) ∨
      (∃ k, mainR46 c7AmendedWitnessWorld = .error (.keyError k))) ∧
    (∀ n, mainR46 c7AmendedWitnessWorld ≠ .ok n) ∧
    ((c7AmendedWitnessWorld.networkAccess = .ok none ∨
        ∃ cfg, c7AmendedWitnessWorld.networkAccess = .ok (some cfg) ∧
          ∀ line ∈ cfg, ConfigLine.getName line = "eth0" → line.subnets = some []) →
      ∃ msg, mainR46 c7AmendedWitnessWorld = .error (.exception msg)) :=
  mainR46_malformed_network_crash c7AmendedWitnessWorld "/tgt" "/fst" "/cfg"
    ("aa:bb".toList) "eth0" rfl rfl (by decide) (by decide)
    (fun h => absurd h (by decide)) rfl (by decide)
    (Or.inr ⟨[⟨some "eth0", some []⟩], rfl, by
      intro line hline hname
      have heq : line = ⟨some "eth0", some []⟩ := List.mem_singleton.mp hline
      subst heq
      exact Or.inr ⟨[], rfl, by simp⟩⟩)
